import Mathlib

/-!
# Verification of the `deals` repository against its specification

Shallow embedding of the core subsystems of the `deals` marketplace monitor:
the rate-limited client (`src/deals/api.py`, `deals.py`), the paginated
fetchers (`src/deals/api.py`, `src/deals/feeds.py`), the resumable wantlist
cache (`src/deals/wantlist.py`), the deal evaluator (`src/deals/api.py`,
`deals.py`) and the feed merger (`src/deals/main.py`).

Modelling conventions:
* Python `float` prices and ratings are modelled as `ℚ`; timestamps
  (`datetime`) as `Int`.
* Python code that can raise is modelled with `Option`/`Except`.
* Remote I/O is modelled by passing the sequence of call outcomes as data.
* Python `dict`s are insertion-ordered association lists; Python `set`s are
  membership lists.
-/

/-- Python's built-in `round`: round half to even (banker's rounding). -/
def pyRound (x : ℚ) : Int :=
  let f : Int := ⌊x⌋
  let r : ℚ := x - f
  if r < 1/2 then f
  else if 1/2 < r then f + 1
  else if f % 2 = 0 then f else f + 1

/-- `api.py` `Condition`: the eight Discogs condition grades. -/
inductive Condition
  | P | F | G | GP | VG | VGP | NM | M
deriving DecidableEq, BEq, Repr

/-- `api.py` `Artist` (id, name). -/
structure Artist where
  id : Int
  name : String
deriving DecidableEq, Repr

/-- `api.py` `Label` (id, name). -/
structure Label where
  id : Int
  name : String
deriving DecidableEq, Repr

/-- `api.py` `Release`: a catalog entity. `price_suggestions` is the
insertion-ordered dict from condition grade to suggested price. -/
structure Release where
  id : Int
  master_id : Option Int
  title : String
  artists : List Artist
  formats : List String
  labels : List (Label × Option String)
  thumbnail : String
  genres : List String
  year : Option Int
  country : Option String
  «have» : Int
  want : Int
  price_suggestions : List (Condition × ℚ)
deriving DecidableEq, Repr

/-- `api.py` `Release.get_description`:
`" | ".join(artist names) + " - " + title`. -/
def Release.get_description (r : Release) : String :=
  String.intercalate " | " (r.artists.map (fun a => a.name)) ++ " - " ++ r.title

/-- `api.py` `Seller` (username, rating). -/
structure Seller where
  username : String
  rating : ℚ
deriving DecidableEq, Repr

/-- `api.py` `Listing`: an offer for sale of a `Release`. -/
structure Listing where
  id : Int
  seller : Seller
  release : Release
  price : ℚ
  shipping_price : ℚ
  allow_offers : Bool
  condition : Condition
  sleeve_condition : Option Condition
  posted : Int
  ships_from : String
  uri : String
  comments : String
deriving DecidableEq, Repr

/-- `src/deals/config.py` `Config`: the fields the core subsystems read
(`MAX_FEED_ENTRIES` defaults to 50, `STANDARD_SHIPPING` to 5.00; the
environment may override them, so they stay abstract here). -/
structure Config where
  MAX_FEED_ENTRIES : Nat
  STANDARD_SHIPPING : ℚ
deriving DecidableEq, Repr

/-- The default configuration values from `src/deals/config.py`. -/
def config_default : Config := ⟨50, 5⟩

/-- `api.py` `Listing.get_adjusted_price`:
`(price + shipping_price) - config.STANDARD_SHIPPING`. -/
def Listing.get_adjusted_price (cfg : Config) (l : Listing) : ℚ :=
  (l.price + l.shipping_price) - cfg.STANDARD_SHIPPING

/-- `api.py` `Listing.get_suggested_price`: the suggested price for the
listing's condition if present in `release.price_suggestions`, otherwise the
adjusted price itself. -/
def Listing.get_suggested_price (cfg : Config) (l : Listing) : ℚ :=
  match l.release.price_suggestions.lookup l.condition with
  | none => l.get_adjusted_price cfg
  | some p => p

/-- `api.py` `Listing.get_discount`:
`round((suggested_price - adjusted_price) / suggested_price * 100)`.
The Python division raises `ZeroDivisionError` when the suggested price is
zero; that failure is modelled as `none`. -/
def Listing.get_discount (cfg : Config) (l : Listing) : Option Int :=
  let adjusted_price := l.get_adjusted_price cfg
  let suggested_price := l.get_suggested_price cfg
  if suggested_price = 0 then none
  else some (pyRound ((suggested_price - adjusted_price) / suggested_price * 100))

/-- A concrete release used as a fixture: the suggested price for
Very Good Plus is $30. -/
def release5 : Release :=
  { id := 5
    master_id := none
    title := "T"
    artists := [⟨1, "A"⟩]
    formats := ["Vinyl"]
    labels := []
    thumbnail := "th"
    genres := ["Jazz"]
    year := some 2000
    country := some "US"
    «have» := 1
    want := 2
    price_suggestions := [(Condition.VGP, 30)] }

/-- A concrete listing fixture: listing 5, priced $20 with $5 shipping, in
Very Good Plus condition on `release5`. -/
def listing5 : Listing :=
  { id := 5
    seller := ⟨"u", 100⟩
    release := release5
    price := 20
    shipping_price := 5
    allow_offers := false
    condition := Condition.VGP
    sleeve_condition := none
    posted := 10
    ships_from := "US"
    uri := "u5"
    comments := "" }

/-- A release with no suggested price for any condition. -/
def release_nosugg : Release :=
  { release5 with id := 6, price_suggestions := [] }

/-- A listing on `release_nosugg` whose price plus shipping exactly equals the
standard shipping credit. -/
def listing_zero : Listing :=
  { listing5 with id := 6, release := release_nosugg, price := 3, shipping_price := 2 }

/-- An HTTP response as observed by `API.call` in `api.py`: status code, the
`X-Discogs-Ratelimit-Remaining` header, the body text and the decoded JSON
payload (abstracted to a string; `r.json()` is only called on status 200). -/
structure HTTPResponse where
  status : Nat
  ratelimit_remaining : Nat
  body : String
  payload : String
deriving DecidableEq, Repr

/-- `api.py` `APIException`: carries the optional last status code and the
optional response body (`details`). The human-readable message is omitted. -/
structure APIException where
  status_code : Option Nat
  details : Option String
deriving DecidableEq, Repr

/-- One attempt outcome for `API.call`: either a transient network failure
(`httpx.HTTPError`, caught by the loop) or a received response. -/
abbrev Attempt := Except Unit HTTPResponse

/-- The retry loop of `api.py` `API.call`. `outcomes i` is the result of the
`i`-th physical GET; `fuel` is `attempts_remaining` (initially 5); `lastR`
models the Python variable `r`, which keeps the last received response across
attempts that end in a network error. A 200 response returns its payload; any
other outcome consumes an attempt and retries; exhausting attempts raises an
`APIException` carrying the last received response's status and body, if any.
(The rate-limit and backoff sleeps are timing-only and not modelled.) -/
def API.callGo (outcomes : Nat → Attempt) : Nat → Nat → Option HTTPResponse →
    Except APIException String
  | 0, _, lastR =>
    match lastR with
    | none => .error ⟨none, none⟩
    | some r => .error ⟨some r.status, some r.body⟩
  | fuel + 1, i, lastR =>
    match outcomes i with
    | .error _ => API.callGo outcomes fuel (i + 1) lastR
    | .ok r =>
      if r.status = 200 then .ok r.payload
      else API.callGo outcomes fuel (i + 1) (some r)

/-- `api.py` `API.call` with its attempt budget of 5. -/
def API.call (outcomes : Nat → Attempt) : Except APIException String :=
  API.callGo outcomes 5 0 none

/-- Build an attempt sequence from a finite list; attempts past the end of the
list are network failures (they are never reached in the theorems below). -/
def mkAttempts (l : List Attempt) : Nat → Attempt :=
  fun i => l.getD i (.error ())

/-- Whether an attempt outcome keeps `API.call`'s retry loop going: a network
failure, or a response with a status other than 200. -/
def attempt_failed : Attempt → Bool
  | .error _ => true
  | .ok r => r.status != 200

/-- A page response as observed by `API.paginate_api_results`: `pagination` is
`some (page, next)` exactly when the JSON has `pagination.page` and
`pagination.urls.next`, in which case `page` is the current page number and
`next` the URL of the next page. -/
structure APIResults where
  pagination : Option (Nat × String)
deriving DecidableEq, Repr

/-- One iteration outcome for `API.paginate_api_results`: either the inner
`API.call` raised `APIException`, or it returned a results page. -/
abbrev PageOutcome := Except Unit APIResults

/-- The loop of `api.py` `API.paginate_api_results`. `ep` is the current
request (endpoint plus params, abstracted to a string); `exc` is
`exceptions_handled`; `trace` is the sequence of outcomes of successive
physical `API.call` invocations. Returns the pages yielded and the list of
`(request, outcome)` pairs actually consumed. The loop runs while `exc ≤ 5`;
on an exception the request is left unchanged (the same page is retried) and
`exc` increments; on success the page is yielded, then iteration continues at
the advertised next URL unless there is none or the page equals
`stop_after_page`. An exhausted trace ends the run. -/
def API.paginateApiGo : String → Nat → Option Nat → List PageOutcome →
    List APIResults × List (String × PageOutcome)
  | _, _, _, [] => ([], [])
  | ep, exc, stop_after_page, o :: rest =>
    if exc > 5 then ([], [])
    else
      match o with
      | .error e =>
        ((API.paginateApiGo ep (exc + 1) stop_after_page rest).1,
          (ep, .error e) :: (API.paginateApiGo ep (exc + 1) stop_after_page rest).2)
      | .ok results =>
        match results.pagination with
        | none => ([results], [(ep, .ok results)])
        | some (page, next) =>
          if stop_after_page = some page then ([results], [(ep, .ok results)])
          else
            (results :: (API.paginateApiGo next exc stop_after_page rest).1,
              (ep, .ok results) :: (API.paginateApiGo next exc stop_after_page rest).2)

/-- `api.py` `API.paginate_api_results`, starting with `exceptions_handled = 0`. -/
def API.paginate_api_results (endpoint : String) (stop_after_page : Option Nat)
    (trace : List PageOutcome) : List APIResults × List (String × PageOutcome) :=
  API.paginateApiGo endpoint 0 stop_after_page trace

/-- Whether a pagination iteration outcome is an `APIException`. -/
def PageOutcome.failed : PageOutcome → Bool
  | .error _ => true
  | .ok _ => false

/-- Count of consumed iterations that ended in an `APIException`. -/
def countErr (cs : List (String × PageOutcome)) : Nat :=
  cs.countP (fun c => c.2.failed)

/-- An Atom entry as parsed by `atoma` (consumed by `feeds.py` and by the feed
merger in `main.py`): id (a URL string), title, optional update timestamp,
optional HTML content, optional summary. -/
structure AtomEntryIn where
  id : String
  title : String
  updated : Option Int
  content : Option String
  summary : Option String
deriving DecidableEq, Repr

/-- One iteration outcome for `Feeds.paginate_feed`: either `Feeds.get` raised
`FeedException`, or it returned the parsed feed's entries. -/
abbrev FeedOutcome := Except Unit (List AtomEntryIn)

/-- The `since` cutoff test in `feeds.py` `Feeds.paginate_feed`: the loop over
a page's entries stops (without yielding the entry) exactly when a `since`
bound is supplied, the entry has an `updated` timestamp, and
`entry.updated < since`. -/
def sinceHit (since : Option Int) (e : AtomEntryIn) : Bool :=
  match since, e.updated with
  | some s, some u => u < s
  | _, _ => false

/-- The inner entry loop of `Feeds.paginate_feed`: yields entries until the
`since` cutoff hits, returning the yielded prefix and whether the cutoff was
hit (`done`). -/
def yieldUntilSince (since : Option Int) : List AtomEntryIn → List AtomEntryIn × Bool
  | [] => ([], false)
  | e :: rest =>
    if sinceHit since e then ([], true)
    else
      (e :: (yieldUntilSince since rest).1, (yieldUntilSince since rest).2)

/-- The page loop of `feeds.py` `Feeds.paginate_feed`. `trace` is the sequence
of outcomes of successive `Feeds.get` calls; `exc` is `exceptions_handled`.
The loop runs while `exc ≤ 1`; a `FeedException` increments `exc` and retries
the same page; an empty page ends the iteration; otherwise the page's entries
are yielded up to the `since` cutoff, which also ends the iteration.
An exhausted trace ends the run. -/
def Feeds.paginateFeedGo (since : Option Int) : Nat → List FeedOutcome → List AtomEntryIn
  | _, [] => []
  | exc, o :: rest =>
    if exc > 1 then []
    else
      match o with
      | .error _ => Feeds.paginateFeedGo since (exc + 1) rest
      | .ok entries =>
        if entries.isEmpty then []
        else if (yieldUntilSince since entries).2 then (yieldUntilSince since entries).1
        else (yieldUntilSince since entries).1 ++ Feeds.paginateFeedGo since exc rest

/-- `feeds.py` `Feeds.paginate_feed`, starting with `exceptions_handled = 0`. -/
def Feeds.paginate_feed (since : Option Int) (trace : List FeedOutcome) :
    List AtomEntryIn :=
  Feeds.paginateFeedGo since 0 trace

/-- `api.py` `WantlistItem`: a release together with the date it was added to
the wantlist and free-text notes. -/
structure WantlistItem where
  release : Release
  date_added : Int
  notes : String
deriving DecidableEq, Repr

/-- `wantlist.py` `Cache`: the persisted wantlist state — the current
pagination cursor and the insertion-ordered dict from release id to
`WantlistItem`. -/
structure Cache where
  page : Nat
  wants : List (Int × WantlistItem)
deriving DecidableEq, Repr

/-- Python dict assignment `d[k] = v`: replace the value in place when the key
is present, otherwise append the pair. -/
def dict_insert (k : Int) (v : WantlistItem) :
    List (Int × WantlistItem) → List (Int × WantlistItem)
  | [] => [(k, v)]
  | (k', v') :: rest =>
    if k' = k then (k, v) :: rest else (k', v') :: dict_insert k v rest

/-- `wantlist.py` `Cache.update`: set the cursor to `page` when it differs,
then store the item under its release id. -/
def Cache.update (c : Cache) (page : Nat) (want : WantlistItem) : Cache :=
  let c' := if c.page = page then c else { c with page := page }
  { c' with wants := dict_insert want.release.id want c'.wants }

/-- The persisted wantlist store: `none` models a missing `wantlist.pickle`
(`FileNotFoundError` on open); `some none` a file that exists but cannot be
unpickled; `some (some c)` a file that decodes to cache `c`. -/
abbrev CacheStore := Option (Option Cache)

/-- `wantlist.py` `_load_cache`: only `FileNotFoundError` is caught (yielding
the empty state at page 1); a file that exists but fails to decode raises,
modelled as `.error`. -/
def load_cache : CacheStore → Except String Cache
  | none => .ok ⟨1, []⟩
  | some none => .error "UnpicklingError"
  | some (some c) => .ok c

/-- `wantlist.py` `_save_cache`: persist the cache (the temp-file rename is
collapsed into a single store update). -/
def save_cache (c : Cache) : CacheStore := some (some c)

/-- Insertion sort by release id, modelling Python
`sorted(cache.wants.values(), key=lambda w: w.release.id)`. -/
def insert_by_id (p : Int × WantlistItem) :
    List (Int × WantlistItem) → List (Int × WantlistItem)
  | [] => [p]
  | q :: rest => if p.1 ≤ q.1 then p :: q :: rest else q :: insert_by_id p rest

/-- Sort an association list of wants by release id. -/
def sort_by_id : List (Int × WantlistItem) → List (Int × WantlistItem)
  | [] => []
  | p :: rest => insert_by_id p (sort_by_id rest)

/-- `wantlist.py` `get`. The remote fetch is modelled by `events`, the finite
list of `(page, item)` pairs that `api.fetch_wantlist` yields before either
completing naturally (`fail = false`) or raising (`fail = true`). Returns the
function's result — the wantlist sorted by release id, or the propagated
exception — together with the store as left on disk. When the cache loads
with items and no refresh is requested, no fetch happens and the store is
untouched; otherwise every yielded item updates the cache, the `finally`
block always persists it, and on natural completion the cursor is first reset
to page 1. (`first_page` only parameterizes the remote fetch and is implicit
in `events`.) -/
def wantlist_get (store : CacheStore) (clear_cache refresh_cache : Bool)
    (events : List (Nat × WantlistItem)) (fail : Bool) :
    Except String (List WantlistItem) × CacheStore :=
  match (if clear_cache then .ok ⟨1, []⟩ else load_cache store :
      Except String Cache) with
  | .error e => (.error e, store)
  | .ok cache =>
    if cache.wants.isEmpty || refresh_cache then
      let cache' := events.foldl (fun c pw => c.update pw.1 pw.2) cache
      if fail then (.error "fetch_wantlist raised", save_cache cache')
      else
        let cache'' : Cache := { cache' with page := 1 }
        (.ok ((sort_by_id cache''.wants).map (fun p => p.2)), save_cache cache'')
    else (.ok ((sort_by_id cache.wants).map (fun p => p.2)), store)

/-- A value held by the deduplication set in `main.py`'s feed merger. The main
loop adds the integer `listing.id`; `copy_remaining_entries` adds the entry id
string. Python compares them with set membership, under which an `int` never
equals a `str`. -/
inductive PyId
  | int (n : Int)
  | str (s : String)
deriving DecidableEq, Repr

/-- An Atom entry as written through `feedgen`'s `FeedGenerator` in `main.py`:
id, title, updated timestamp, link href and optional HTML content. -/
structure AtomEntryOut where
  id : String
  title : String
  updated : Int
  link : String
  content : Option String
deriving DecidableEq, Repr

/-- The feed entry id `main.py` writes for a newly accepted listing:
`"https://www.discogs.com/sell/item/" + str(listing.id)`. -/
def itemUrl (listing_id : Int) : String :=
  "https://www.discogs.com/sell/item/" ++ toString listing_id

/-- `main.py` `copy_entry`: copy a parsed old-feed entry into the generator,
substituting `now` for a missing `updated` timestamp. -/
def copy_entry (now : Int) (e : AtomEntryIn) : AtomEntryOut :=
  ⟨e.id, e.title, e.updated.getD now, e.id, e.content⟩

/-- The new-item phase of the merge in `main.py` `main` (lines 296–305): fold
over the accepted listings; while `feed_entries < MAX_FEED_ENTRIES`, a listing
whose integer id is not yet in `listing_ids` is appended as a new entry (id
`itemUrl listing.id`, title from the release description, updated from
`listing.posted`, link from `listing.uri`, content from the rendered summary)
and counted. `render` abstracts `summarize`, the excluded presentation layer.
Returns `(feed_entries, listing_ids, entries)`. -/
def add_new_listings (cfg : Config) (render : Listing → String)
    (listings : List Listing) : Nat × List PyId × List AtomEntryOut :=
  listings.foldl
    (fun st l =>
      let (feed_entries, listing_ids, out) := st
      if feed_entries < cfg.MAX_FEED_ENTRIES then
        if PyId.int l.id ∈ listing_ids then st
        else
          (feed_entries + 1, PyId.int l.id :: listing_ids,
            out ++ [⟨itemUrl l.id, l.release.get_description, l.posted, l.uri,
              some (render l)⟩])
      else st)
    (0, [], [])

/-- The entry loop of `main.py` `copy_remaining_entries`: for each old entry,
while `feed_entries < MAX_FEED_ENTRIES`, copy it unless its id string is
already in `deal_ids`; once the cap is reached, stop. -/
def copy_remaining_go (cfg : Config) (now : Int) :
    Nat → List PyId → List AtomEntryIn → List AtomEntryOut
  | _, _, [] => []
  | feed_entries, deal_ids, e :: rest =>
    if feed_entries < cfg.MAX_FEED_ENTRIES then
      if PyId.str e.id ∈ deal_ids then
        copy_remaining_go cfg now feed_entries deal_ids rest
      else
        copy_entry now e ::
          copy_remaining_go cfg now (feed_entries + 1) (PyId.str e.id :: deal_ids) rest
    else []

/-- `main.py` `copy_remaining_entries`: no-op when no old feed was parsed. -/
def copy_remaining_entries (cfg : Config) (now : Int)
    (feed : Option (List AtomEntryIn)) (feed_entries : Nat) (deal_ids : List PyId) :
    List AtomEntryOut :=
  match feed with
  | none => []
  | some entries => copy_remaining_go cfg now feed_entries deal_ids entries

/-- The feed merge performed by `main.py` `main`: append entries for the
accepted listings (deduplicated by integer id against `listing_ids` and capped
at `MAX_FEED_ENTRIES`), then carry over old-feed entries into the remaining
capacity via `copy_remaining_entries`. -/
def merge_feed (cfg : Config) (render : Listing → String) (now : Int)
    (listings : List Listing) (old_feed : Option (List AtomEntryIn)) :
    List AtomEntryOut :=
  let (feed_entries, listing_ids, new_entries) := add_new_listings cfg render listings
  new_entries ++ copy_remaining_entries cfg now old_feed feed_entries listing_ids

/-- Re-parsing a written feed entry with `atoma` for the next run: the id,
title, updated timestamp and content round-trip; `feedgen` writes no summary. -/
def entry_as_parsed (e : AtomEntryOut) : AtomEntryIn :=
  ⟨e.id, e.title, some e.updated, e.content, none⟩

/-- The configured eligibility knobs `ALLOW_VG` read by `deals.py`
`meets_criteria` from the (out-of-scope) top-level `config.py`: minimum seller
rating, minimum release age in years, and the allowed genre set. -/
structure AllowVG where
  minimum_seller_rating : ℚ
  minimum_age : Int
  genres : List String
deriving DecidableEq, Repr

/-- `deals.py` `meets_criteria`. The configured constants (`BLOCKED_SELLERS`,
`CONDITIONS["VG+"]` and `ALLOW_VG`) come from the external top-level
`config.py` and are taken as parameters (`blocked_sellers`, `vgp_condition`,
`allow_vg`). Rejects when the price is missing or the seller is blocked; for
the lenient grade additionally requires the seller rating to meet the minimum
and either the release age to meet the minimum or the genres to intersect the
allowed set; every other grade passes. -/
def meets_criteria (blocked_sellers : List String) (vgp_condition : String)
    (allow_vg : AllowVG) (seller : String) (price : Option ℚ) (condition : String)
    (release_age : Int) (release_genres : List String) (seller_rating : ℚ) : Bool :=
  if price = none || seller ∈ blocked_sellers then false
  else if condition = vgp_condition then
    if seller_rating < allow_vg.minimum_seller_rating then false
    else if release_age < allow_vg.minimum_age
        && (release_genres.filter (fun g => allow_vg.genres.contains g)).isEmpty then
      false
    else true
  else true

/-- The `release_age` computation in `deals.py` `process_listing`: an unknown
release year is replaced by `ALLOW_VG["minimum_age"]` itself, otherwise the
age is the current year minus the release year. -/
def release_age_of (allow_vg : AllowVG) (today_year : Int)
    (release_year : Option Int) : Int :=
  match release_year with
  | none => allow_vg.minimum_age
  | some y => today_year - y

/-- A fixed renderer standing in for the excluded presentation layer
(`summarize` plus the thumbnail image prefix). -/
def render_s : Listing → String := fun _ => "s"

/-- An old-feed entry for listing 5, as a previous run of `main.py` would have
written and a later run would re-parse: its id is `itemUrl 5`. -/
def old_entry5 : AtomEntryIn := ⟨itemUrl 5, "T", some 9, some "c", none⟩

/-- Marketplace feed entries for the `since` scenario: five items in
descending recency order (timestamps 50, 40, 30, 20, 10). -/
def fe1 : AtomEntryIn := ⟨"e1", "t1", some 50, none, none⟩

/-- Second item of the `since` scenario (timestamp 40). -/
def fe2 : AtomEntryIn := ⟨"e2", "t2", some 40, none, none⟩

/-- Third item of the `since` scenario (timestamp 30, equal to the bound). -/
def fe3 : AtomEntryIn := ⟨"e3", "t3", some 30, none, none⟩

/-- Fourth item of the `since` scenario (timestamp 20). -/
def fe4 : AtomEntryIn := ⟨"e4", "t4", some 20, none, none⟩

/-- Fifth item of the `since` scenario (timestamp 10). -/
def fe5 : AtomEntryIn := ⟨"e5", "t5", some 10, none, none⟩

/-- A 404 response fixture. -/
def resp404 : HTTPResponse := ⟨404, 60, "not found", ""⟩

/-- A 429 (rate limited) response fixture. -/
def resp429 : HTTPResponse := ⟨429, 0, "rate limited", ""⟩

/-- A 500 response fixture. -/
def resp500 : HTTPResponse := ⟨500, 60, "server error", ""⟩

/-- A 200 response fixture with payload `"J"`. -/
def resp200 : HTTPResponse := ⟨200, 60, "ok", "J"⟩

/-- The `k`-th results page of a paginated API scan, advertising a next page. -/
def api_page (k : Nat) : APIResults := ⟨some (k, "n")⟩

/-- The final results page of a paginated API scan (no next page). -/
def api_page_last : APIResults := ⟨none⟩

/-- A pagination trace in which every page fetch fails exactly once and then
succeeds on retry: six isolated, non-consecutive failures in total. -/
def c6_trace : List PageOutcome :=
  [.error (), .ok (api_page 1), .error (), .ok (api_page 2),
   .error (), .ok (api_page 3), .error (), .ok (api_page 4),
   .error (), .ok (api_page 5), .error (), .ok api_page_last]

/-- A concrete wantlist item on `release5`. -/
def want_item : WantlistItem := ⟨release5, 0, "n"⟩

/-- The first component of `yieldUntilSince` is `takeWhile` of the negated
`since` cutoff test. -/
theorem yieldUntilSince_fst (since : Option Int) (es : List AtomEntryIn) :
    (yieldUntilSince since es).1 = es.takeWhile (fun e => !(sinceHit since e)) := by
  induction es with
  | nil => rfl
  | cons e rest ih =>
    cases hs : sinceHit since e <;>
      simp [yieldUntilSince, hs, List.takeWhile_cons, ih]

/-- After folding `Cache.update` over a batch of fetched items, the cursor is
the page of the last item processed. -/
theorem foldl_update_page (c : Cache) (events : List (Nat × WantlistItem))
    (p : Nat) (w : WantlistItem) :
    ((events ++ [(p, w)]).foldl (fun c pw => c.update pw.1 pw.2) c).page = p := by
  simp only [List.foldl_append, List.foldl_cons, List.foldl_nil, Cache.update]
  split
  · next h => exact h
  · rfl

/-- The first request consumed by `API.paginateApiGo` (when any is consumed)
is the request it was invoked with. -/
theorem paginateApiGo_head (ep : String) (exc : Nat) (stop : Option Nat)
    (trace : List PageOutcome) (x : String × PageOutcome)
    (hx : ((API.paginateApiGo ep exc stop trace).2).head? = some x) : x.1 = ep := by
  cases trace with
  | nil => simp [API.paginateApiGo] at hx
  | cons o rest =>
    by_cases h5 : exc > 5
    · simp [API.paginateApiGo, h5] at hx
    · cases o with
      | error e =>
        simp [API.paginateApiGo, h5] at hx
        rw [← hx]
      | ok res =>
        cases hp : res.pagination with
        | none =>
          simp [API.paginateApiGo, h5, hp] at hx
          rw [← hx]
        | some pn =>
          by_cases hs : stop = some pn.1
          · simp [API.paginateApiGo, h5, hp, hs] at hx
            rw [← hx]
          · simp [API.paginateApiGo, h5, hp, hs] at hx
            rw [← hx]

/-- `API.paginateApiGo` handles at most `6 - exc` further exceptions: the
counter only ever grows. -/
theorem paginateApiGo_countErr_le (trace : List PageOutcome) :
    ∀ (ep : String) (exc : Nat) (stop : Option Nat), exc ≤ 6 →
      countErr (API.paginateApiGo ep exc stop trace).2 + exc ≤ 6 := by
  induction trace with
  | nil => intro ep exc stop h; simp [API.paginateApiGo, countErr]; omega
  | cons o rest ih =>
    intro ep exc stop h
    by_cases h5 : exc > 5
    · simp [API.paginateApiGo, h5, countErr]; omega
    · cases o with
      | error e =>
        have := ih ep (exc + 1) stop (by omega)
        simp only [API.paginateApiGo, if_neg h5] at *
        simp [countErr, List.countP_cons, PageOutcome.failed] at *
        omega
      | ok res =>
        cases hp : res.pagination with
        | none =>
          simp [API.paginateApiGo, h5, hp, countErr, List.countP_cons, PageOutcome.failed]
          omega
        | some pn =>
          by_cases hs : stop = some pn.1
          · simp [API.paginateApiGo, h5, hp, hs, countErr, List.countP_cons,
              PageOutcome.failed]
            omega
          · have := ih pn.2 exc stop (by omega)
            simp [API.paginateApiGo, h5, hp, hs, countErr, List.countP_cons,
              PageOutcome.failed] at this ⊢
            omega

/-- Along the consumed trace of `API.paginateApiGo`, an iteration that raised
is followed (if at all) by an iteration issuing the same request: a failed
page is retried at the same position. -/
theorem paginateApiGo_chain (trace : List PageOutcome) :
    ∀ (ep : String) (exc : Nat) (stop : Option Nat),
      List.Chain' (fun a b => a.2.failed = true → b.1 = a.1)
        (API.paginateApiGo ep exc stop trace).2 := by
  induction trace with
  | nil => intro ep exc stop; simp [API.paginateApiGo]
  | cons o rest ih =>
    intro ep exc stop
    by_cases h5 : exc > 5
    · simp [API.paginateApiGo, h5]
    · cases o with
      | error e =>
        simp only [API.paginateApiGo, if_neg h5]
        rw [List.chain'_cons']
        refine ⟨?_, ih ep (exc + 1) stop⟩
        intro y hy _
        exact paginateApiGo_head ep (exc + 1) stop rest y hy
      | ok res =>
        cases hp : res.pagination with
        | none => simp [API.paginateApiGo, h5, hp]
        | some pn =>
          by_cases hs : stop = some pn.1
          · simp [API.paginateApiGo, h5, hp, hs]
          · simp only [API.paginateApiGo, if_neg h5, hp, if_neg hs]
            rw [List.chain'_cons']
            refine ⟨?_, ih pn.2 exc stop⟩
            intro y hy hfail
            simp [PageOutcome.failed] at hfail

/-- Claim C1 (refuted by the code, evaluated at the failing input): the feed
merger is claimed to keep entry ids unique by skipping old entries whose id is
already present. But the new-item phase records the Python `int` `listing.id`
in the seen-id set while `copy_remaining_entries` checks the old entry's `str`
id URL against it, and an `int` never equals a `str`: merging accepted listing
5 against an old feed already containing its entry yields two entries with the
same id, so the merged feed's ids are not unique. -/
theorem merge_feed_duplicate_entry_ids :
    (merge_feed config_default render_s 100 [listing5] (some [old_entry5])).map
        (fun e => e.id) = [itemUrl 5, itemUrl 5] ∧
    ¬ ((merge_feed config_default render_s 100 [listing5] (some [old_entry5])).map
        (fun e => e.id)).Nodup :=
  ⟨by decide, by decide⟩

/-- Claim C2 (refuted by the code, evaluated at the failing input): the merge
is claimed idempotent, but re-merging the one-listing stream against the feed
produced by merging that same stream once duplicates the entry (the carried
entry's `str` id is never found in the seen set holding the `int` listing id),
so the second merge differs from the first. -/
theorem merge_feed_not_idempotent :
    (merge_feed config_default render_s 100 [listing5]
        (some ((merge_feed config_default render_s 100 [listing5] none).map
          entry_as_parsed))).map (fun e => e.id) = [itemUrl 5, itemUrl 5] ∧
    merge_feed config_default render_s 100 [listing5]
        (some ((merge_feed config_default render_s 100 [listing5] none).map
          entry_as_parsed))
      ≠ merge_feed config_default render_s 100 [listing5] none :=
  ⟨by decide, by decide⟩

/-- Claim C3: when the wantlist fetch loop raises after processing a last item
on page `p`, `get` persists the partially-updated cache — whose cursor is `p`,
the page of the last item processed — before the exception propagates, and
reloading the store afterwards yields exactly that cache. -/
theorem wantlist_cache_saved_on_fetch_failure (c0 : Cache) (refresh : Bool)
    (events : List (Nat × WantlistItem)) (p : Nat) (w : WantlistItem)
    (h : (c0.wants.isEmpty || refresh) = true) :
    wantlist_get (some (some c0)) false refresh (events ++ [(p, w)]) true =
      (.error "fetch_wantlist raised",
        save_cache ((events ++ [(p, w)]).foldl (fun c pw => c.update pw.1 pw.2) c0)) ∧
    ((events ++ [(p, w)]).foldl (fun c pw => c.update pw.1 pw.2) c0).page = p ∧
    load_cache
        (wantlist_get (some (some c0)) false refresh (events ++ [(p, w)]) true).2 =
      .ok ((events ++ [(p, w)]).foldl (fun c pw => c.update pw.1 pw.2) c0) := by
  refine ⟨?_, foldl_update_page c0 events p w, ?_⟩
  · simp [wantlist_get, load_cache, h, save_cache]
  · simp [wantlist_get, load_cache, h, save_cache]

/-- Witness for C3: an empty cache, one page-2 item, then a page-3 item, then
a failure: the persisted cursor is 3 and reloading the store yields it. -/
theorem wantlist_cache_saved_on_fetch_failure_witness :
    wantlist_get (some (some ⟨1, []⟩)) false false ([(2, want_item)] ++ [(3, want_item)])
        true =
      (.error "fetch_wantlist raised",
        save_cache (([(2, want_item)] ++ [(3, want_item)]).foldl
          (fun (c : Cache) (pw : Nat × WantlistItem) => c.update pw.1 pw.2) ⟨1, []⟩)) ∧
    (([(2, want_item)] ++ [(3, want_item)]).foldl
        (fun (c : Cache) (pw : Nat × WantlistItem) => c.update pw.1 pw.2) (⟨1, []⟩ : Cache)).page = 3 ∧
    load_cache
        (wantlist_get (some (some ⟨1, []⟩)) false false
          ([(2, want_item)] ++ [(3, want_item)]) true).2 =
      .ok (([(2, want_item)] ++ [(3, want_item)]).foldl
        (fun (c : Cache) (pw : Nat × WantlistItem) => c.update pw.1 pw.2) ⟨1, []⟩) :=
  wantlist_cache_saved_on_fetch_failure ⟨1, []⟩ false [(2, want_item)] 3 want_item rfl

/-- Claim C4 (counterexample): with five items in descending recency order and
`since` equal to item 3's timestamp, `paginate_feed` is claimed to yield
exactly items 1–2; the code's cutoff is `entry.updated < since` (strict), so
item 3 — timestamped exactly at the bound — is also yielded. -/
theorem paginate_feed_yields_entry_at_bound :
    Feeds.paginate_feed (some 30) [.ok [fe1, fe2, fe3, fe4, fe5], .ok []] =
      [fe1, fe2, fe3] ∧
    Feeds.paginate_feed (some 30) [.ok [fe1, fe2, fe3, fe4, fe5], .ok []] ≠
      [fe1, fe2] :=
  ⟨by decide, by decide⟩

/-- Claim C4 as amended: the first item whose timestamp is strictly before the
`since` bound terminates the sequence immediately without being yielded —
items timestamped exactly at the bound are still yielded — so the yielded
items are the longest prefix not hitting the strict cutoff; in the five-item
scenario with `since` equal to item 3's timestamp, exactly items 1–3 are
yielded. -/
theorem paginate_feed_since_strictly_before :
    (∀ (s : Int) (entries : List AtomEntryIn),
        Feeds.paginate_feed (some s) [.ok entries, .ok []] =
          entries.takeWhile (fun e => !(sinceHit (some s) e))) ∧
    Feeds.paginate_feed (some 30) [.ok [fe1, fe2, fe3, fe4, fe5], .ok []] =
      [fe1, fe2, fe3] := by
  constructor
  · intro s entries
    cases entries with
    | nil => rfl
    | cons e rest =>
      rw [← yieldUntilSince_fst]
      simp only [Feeds.paginate_feed, Feeds.paginateFeedGo]
      norm_num
  · decide

/-- Claim C5 (counterexample): a non-2xx status other than 429 is claimed not
to be retried locally; but `API.call` retries every non-200 response, so after
a 404 a second attempt is made and its 200 payload is returned instead of a
`RemoteError` carrying the 404. -/
theorem api_call_retries_non2xx_counterexample :
    API.call (mkAttempts [.ok resp404, .ok resp200]) = .ok "J" ∧
    API.call (mkAttempts [.ok resp404, .ok resp200]) ≠
      .error ⟨some 404, some "not found"⟩ :=
  ⟨rfl, by intro h; exact Except.noConfusion h⟩

/-- Claim C5 as amended: every non-200 response (429 or not) and every
transient network failure alike consumes one of the 5 attempts and is retried;
only after all 5 attempts fail is an `APIException` raised, preserving the
status code and body of the last observed response. -/
theorem api_call_retry_budget :
    (∀ (o0 o1 o2 o3 : Attempt) (r : HTTPResponse),
        attempt_failed o0 = true → attempt_failed o1 = true →
        attempt_failed o2 = true → attempt_failed o3 = true →
        r.status ≠ 200 →
        API.call (mkAttempts [o0, o1, o2, o3, .ok r]) =
          .error ⟨some r.status, some r.body⟩) ∧
    (∀ (r q : HTTPResponse), r.status ≠ 200 → q.status = 200 →
        API.call (mkAttempts [.ok r, .ok q]) = .ok q.payload) := by
  constructor
  · intro o0 o1 o2 o3 r h0 h1 h2 h3 hr
    cases o0 <;> cases o1 <;> cases o2 <;> cases o3 <;>
      simp_all [API.call, API.callGo, mkAttempts, attempt_failed]
  · intro r q hr hq
    simp [API.call, API.callGo, mkAttempts, hr, hq]

/-- Witness for C5 as amended: four 404s then a 500 raise an exception carrying
the last status 500 and its body; a 429 followed by a 200 returns the 200's
payload. -/
theorem api_call_retry_budget_witness :
    API.call (mkAttempts [.ok resp404, .ok resp404, .ok resp404, .ok resp404,
        .ok resp500]) =
      .error ⟨some resp500.status, some resp500.body⟩ ∧
    API.call (mkAttempts [.ok resp429, .ok resp200]) = .ok resp200.payload :=
  ⟨api_call_retry_budget.1 (.ok resp404) (.ok resp404) (.ok resp404) (.ok resp404)
      resp500 rfl rfl rfl rfl (by decide),
    api_call_retry_budget.2 resp429 resp200 (by decide) rfl⟩

/-- Claim C6 (counterexample): the page-failure tolerance is claimed to count
*consecutive* failures; but `exceptions_handled` never resets on success. In a
trace where every failure is isolated (no two adjacent), the sixth cumulative
failure still ends the sequence early: the last page is never fetched even
though its outcome is available in the trace. -/
theorem paginate_api_results_cumulative_failures :
    (API.paginate_api_results "e" none c6_trace).1 =
      [api_page 1, api_page 2, api_page 3, api_page 4, api_page 5] ∧
    api_page_last ∉ (API.paginate_api_results "e" none c6_trace).1 ∧
    (c6_trace.zip c6_trace.tail).all
      (fun ab => !(ab.1.failed && ab.2.failed)) = true :=
  ⟨by decide, by decide, by decide⟩

/-- Claim C6 as amended: a failed page fetch is retried at the same request
position (the consumed trace never changes request between a failure and the
following attempt), and the pagination handles at most 6 exceptions in total —
cumulative across the whole run, not consecutive — before ending early as a
normal completion (the function returns a value; it never raises). -/
theorem paginate_api_results_bounded_retry (ep : String) (stop : Option Nat)
    (trace : List PageOutcome) :
    countErr (API.paginate_api_results ep stop trace).2 ≤ 6 ∧
    List.Chain' (fun a b => a.2.failed = true → b.1 = a.1)
      (API.paginate_api_results ep stop trace).2 := by
  constructor
  · have := paginateApiGo_countErr_le trace ep 0 stop (by omega)
    simpa [API.paginate_api_results] using this
  · exact paginateApiGo_chain trace ep 0 stop

/-- Claim C7: for a listing with a known (nonzero) suggested price `s` for its
condition, the discount is `round((s - adjusted) / s * 100)` as an integer
percentage with `adjusted = price + shipping - STANDARD_SHIPPING`; in the
scenario priced $20 + $5 shipping with a $5 credit and a $30 suggestion, the
adjusted price is $20 and the discount 33. -/
theorem get_discount_formula :
    (∀ (cfg : Config) (l : Listing) (s : ℚ),
        l.release.price_suggestions.lookup l.condition = some s → s ≠ 0 →
        Listing.get_discount cfg l =
          some (pyRound ((s - Listing.get_adjusted_price cfg l) / s * 100))) ∧
    Listing.get_adjusted_price config_default listing5 = 20 ∧
    Listing.get_discount config_default listing5 = some 33 := by
  refine ⟨?_, ?_, ?_⟩
  · intro cfg l s h hs
    simp [Listing.get_discount, Listing.get_suggested_price, h, hs]
  · norm_num [Listing.get_adjusted_price, listing5, config_default]
  · have hl : listing5.release.price_suggestions.lookup listing5.condition =
        some 30 := rfl
    have h30 : (30 : ℚ) ≠ 0 := by norm_num
    simp only [Listing.get_discount, Listing.get_suggested_price, hl]
    rw [if_neg h30]
    norm_num [Listing.get_adjusted_price, listing5, config_default, pyRound]

/-- Witness for C7: the formula applied to the concrete $30-suggestion
listing. -/
theorem get_discount_formula_witness :
    Listing.get_discount config_default listing5 =
      some (pyRound ((30 - Listing.get_adjusted_price config_default listing5)
        / 30 * 100)) :=
  get_discount_formula.1 config_default listing5 30 rfl (by norm_num)

/-- Claim C8: in the lenient condition grade the seller-rating requirement
always applies — `meets_criteria` returns false whenever the rating is below
the configured minimum, for every age and genre set — while an unknown release
year makes `process_listing` substitute the configured minimum age itself, so
the minimum-age requirement is satisfied (never strictly below the minimum). -/
theorem meets_criteria_rating_applies_age_waived :
    (∀ (blocked : List String) (vgp : String) (avg : AllowVG) (seller : String)
        (price : Option ℚ) (age : Int) (genres : List String) (rating : ℚ),
        rating < avg.minimum_seller_rating →
        meets_criteria blocked vgp avg seller price vgp age genres rating = false) ∧
    (∀ (avg : AllowVG) (today_year : Int),
        release_age_of avg today_year none = avg.minimum_age ∧
        ¬ release_age_of avg today_year none < avg.minimum_age) := by
  constructor
  · intro blocked vgp avg seller price age genres rating h
    simp only [meets_criteria, if_pos rfl, h, if_true]
    split
    · rfl
    · simp
  · intro avg today_year
    exact ⟨rfl, by simp [release_age_of]⟩

/-- Witness for C8: a lenient-grade listing with rating 95 below minimum 99
and an unknown release year is rejected. -/
theorem meets_criteria_rating_applies_age_waived_witness :
    meets_criteria [] "Very Good Plus (VG+)" ⟨99, 10, ["Jazz"]⟩ "s" (some 20)
      "Very Good Plus (VG+)" 10 ["Rock"] 95 = false :=
  meets_criteria_rating_applies_age_waived.1 [] "Very Good Plus (VG+)"
    ⟨99, 10, ["Jazz"]⟩ "s" (some 20) 10 ["Rock"] 95 (by norm_num)

/-- Claim C9 (counterexample): a persisted cache blob that exists but cannot
be decoded is claimed to load as the empty state at page 1; but `_load_cache`
catches only `FileNotFoundError`, so decoding failure raises instead of
returning the empty state. -/
theorem load_cache_corrupt_raises :
    load_cache (some none) = .error "UnpicklingError" ∧
    load_cache (some none) ≠ .ok ⟨1, []⟩ :=
  ⟨rfl, by intro h; exact Except.noConfusion h⟩

/-- Claim C9 as amended: only a *missing* store loads as the empty state at
page 1 (first-run tolerance); a store that exists but cannot be decoded raises
the decode error — cache corruption is fatal to the load, not degraded to
"start over". -/
theorem load_cache_missing_defaults_corrupt_raises :
    load_cache none = .ok ⟨1, []⟩ ∧
    load_cache (some none) = .error "UnpicklingError" :=
  ⟨rfl, rfl⟩

/-- Claim C10: `get_discount` is partial — for the concrete listing whose
release has no suggested price for its condition and whose price plus shipping
equals the standard shipping credit, the reference price falls back to the
adjusted price 0 and the discount computation divides by zero (modelled as
`none`) instead of returning an integer. -/
theorem get_discount_division_by_zero :
    listing_zero.release.price_suggestions.lookup listing_zero.condition = none ∧
    listing_zero.price + listing_zero.shipping_price =
      config_default.STANDARD_SHIPPING ∧
    Listing.get_adjusted_price config_default listing_zero = 0 ∧
    Listing.get_discount config_default listing_zero = none := by
  refine ⟨rfl, ?_, ?_, ?_⟩
  · norm_num [listing_zero, listing5, config_default]
  · norm_num [Listing.get_adjusted_price, listing_zero, listing5, config_default]
  · norm_num [Listing.get_discount, Listing.get_suggested_price,
      Listing.get_adjusted_price, listing_zero, listing5, release_nosugg, release5,
      config_default, List.lookup]
